import Mathlib

/-!
Shallow embedding of the scenario workflow engine
(`demo_agent/scenario/{types,router,state_manager,agent}.py`).

The session key-value store is modelled as a typed record: the engine-owned
keys `scenario_state` and `component_data` are separate fields, and all other
keys (component outputs, flattened context updates) live in `globals`.  This
matches the ownership invariant of the data model: components never mutate
the engine's persisted keys directly; all persisted mutation goes through the
state/context/cleanup managers, which apply it as immediate deltas.
Python truthiness on strings ("" is falsy) is modelled explicitly wherever
the source branches on it; an absent dict key and a key holding the falsy
default collapse to the same value exactly where every read in the source
goes through `get` with that default.
-/

namespace Scenario2Proof

/-- Insertion-ordered assoc-list update, mirroring `d[k] = v` on a Python
dict: an existing binding is overwritten in place, a new key is appended. -/
def setAssoc {α : Type} : List (String × α) → String → α → List (String × α)
  | [], k, v => [(k, v)]
  | (k', v') :: rest, k, v =>
    if k' = k then (k, v) :: rest else (k', v') :: setAssoc rest k v

/-- Assoc-list lookup, mirroring `d.get(k)` on a Python dict. -/
def lookupAssoc {α : Type} : List (String × α) → String → Option α
  | [], _ => none
  | (k', v') :: rest, k => if k' = k then some v' else lookupAssoc rest k

theorem lookupAssoc_setAssoc {α : Type} (l : List (String × α)) (k : String) (v : α) :
    lookupAssoc (setAssoc l k v) k = some v := by
  induction l with
  | nil => simp [setAssoc, lookupAssoc]
  | cons hd tl ih =>
    obtain ⟨k', v'⟩ := hd
    by_cases h : k' = k
    · simp [setAssoc, lookupAssoc, h]
    · simp [setAssoc, lookupAssoc, h, ih]

/-- Component execution status (`ComponentStatus` in `types.py`). -/
inductive ComponentStatus where
  | pending
  | running
  | completed
  | failed
deriving DecidableEq, Repr

/-- The string value of each enum member, as declared in `types.py`. -/
def ComponentStatus.value : ComponentStatus → String
  | .pending => "pending"
  | .running => "running"
  | .completed => "completed"
  | .failed => "failed"

/-- Parsing a status string, mirroring the `ComponentStatus(status_str)`
constructor call: an unknown string raises `ValueError`, modelled as `none`. -/
def ComponentStatus.ofString? (s : String) : Option ComponentStatus :=
  if s = "pending" then some .pending
  else if s = "running" then some .running
  else if s = "completed" then some .completed
  else if s = "failed" then some .failed
  else none

theorem ComponentStatus.ofString?_value (st : ComponentStatus) :
    ComponentStatus.ofString? st.value = some st := by
  cases st <;> decide

/-- Domain payloads (`context_updates` values) are opaque to the engine;
they are modelled as string values in an insertion-ordered map. -/
abbrev CtxUpdates := List (String × String)

/-- The persisted `scenario_state` dict.  Fields a fresh state omits are
held at their falsy defaults, which is how every read in the source
observes them (`get` with that default / truthiness checks). -/
structure SState where
  scenario_name : String := ""
  current_component : String := ""
  component_status : List (String × String) := []
  completed : Bool := false
  completion_reason : String := ""
deriving DecidableEq, Repr, Inhabited

/-- The host session key-value state (`ctx.session.state`).  The two
engine-owned keys are explicit; everything else is in `globals`. -/
structure Session where
  scenario_state : Option SState := none
  component_data : Option (List (String × CtxUpdates)) := none
  globals : List (String × String) := []
deriving DecidableEq, Repr, Inhabited

/-- Result of one component execution (`ComponentResult` in `types.py`). -/
structure ComponentResult where
  status : ComponentStatus
  user_message : String := ""
  context_updates : CtxUpdates := []

/-- The black-box agent behind a component: `run` is `agent.run_async`
(the returned session reflects the state deltas its events carried, and
`some e` in the second slot is an exception it raised), and
`create_component_result` builds the `ComponentResult` from the session
after the run (`ScenarioComponentAgent.create_component_result`). -/
structure Agent where
  run : Session → Session × Option String
  create_component_result : Session → ComponentResult

/-- A routing condition (`RoutingCondition` in `types.py`).  The predicate
may raise, modelled by `Except.error`. -/
structure RoutingCondition where
  target_component : String
  condition : ComponentResult → Session → Except String Bool

/-- A node of the workflow graph (`ScenarioComponent` in `types.py`). -/
structure ScenarioComponent where
  id : String
  agent : Agent
  next_components : List String := []
  routing_conditions : List RoutingCondition := []

/-- The static workflow declaration (`Scenario` in `types.py`). -/
structure Scenario where
  name : String
  components : List ScenarioComponent
  entry_component : String
  failure_component : Option ScenarioComponent := none

/-- The `components_by_id` dict built in `ScenarioAgent.__init__` via
`{comp.id: comp for comp in scenario.components}`: a later duplicate id
overwrites an earlier one. -/
def components_by_id_get (sc : Scenario) (cid : String) : Option ScenarioComponent :=
  sc.components.foldl (fun acc c => if c.id = cid then some c else acc) none

/-! Router (`router.py`). -/

/-- Python truthiness of an `Optional[str]`: `None` and the empty string
are falsy.  `route_to_next_component` branches on this. -/
def truthyOpt : Option String → Bool
  | none => false
  | some s => s != ""

/-- `ComponentRouter._check_routing_conditions`: scan the conditions in
declaration order, return the target of the first predicate returning
`True`; a predicate that raises is caught and treated as a non-match. -/
def condScan (r : ComponentResult) (ctx : Session) :
    List RoutingCondition → Option String
  | [] => none
  | rc :: rest =>
    match rc.condition r ctx with
    | .ok true => some rc.target_component
    | _ => condScan r ctx rest

/-- `ComponentRouter._check_routing_conditions`. -/
def check_routing_conditions (c : ScenarioComponent) (r : ComponentResult)
    (ctx : Session) : Option String :=
  condScan r ctx c.routing_conditions

/-- `ComponentRouter._get_default_next_component`: the first default next
component if the list is non-empty. -/
def get_default_next_component (c : ScenarioComponent) : Option String :=
  match c.next_components with
  | [] => none
  | x :: _ => some x

/-- `ComponentRouter.route_to_next_component`: conditions first (result
kept only if truthy), then the default next (kept only if truthy),
otherwise `None`. -/
def route_to_next_component (c : ScenarioComponent) (r : ComponentResult)
    (ctx : Session) : Option String :=
  let nc := check_routing_conditions c r ctx
  if truthyOpt nc then nc
  else
    let d := get_default_next_component c
    if truthyOpt d then d else none

/-- `FlowController.should_continue_current_component`. -/
def should_continue_current_component (st : ComponentStatus) : Bool :=
  st = .running

/-- `FlowController.should_proceed_to_next`. -/
def should_proceed_to_next (st : ComponentStatus) : Bool :=
  st = .completed

/-- `FlowController.should_handle_failure`. -/
def should_handle_failure (st : ComponentStatus) : Bool :=
  st = .failed

/-- `ComponentValidator.validate_component_exists`: membership in the
`components_by_id` dict. -/
def validate_component_exists (component_id : String) (sc : Scenario) : Bool :=
  sc.components.any (fun c => c.id == component_id)

/-- `ComponentValidator.validate_routing_conditions`: the routing-condition
targets and default next ids of a component that do not resolve, in the
order the source collects them. -/
def validate_routing_conditions (c : ScenarioComponent) (sc : Scenario) : List String :=
  (c.routing_conditions.filter
      (fun rc => ¬ validate_component_exists rc.target_component sc)).map
      (fun rc => rc.target_component)
    ++ c.next_components.filter (fun n => ¬ validate_component_exists n sc)

/-! State manager (`state_manager.py`).  Every mutating call builds the new
`scenario_state` value and applies it as an immediate delta; the functions
below return the session after that delta. -/

/-- `ScenarioStateManager._get_current_scenario_state`: the persisted
`scenario_state` if truthy, else an empty dict. -/
def get_current_scenario_state (s : Session) : SState :=
  match s.scenario_state with
  | some st => st
  | none => {}

/-- `ScenarioStateManager._create_new_scenario_state`: write a fresh
state dict `{scenario_name, current_component: entry, component_status: {}}`
as an immediate delta. -/
def create_new_scenario_state (name entry : String) (s : Session) : Session :=
  { s with scenario_state := some ({ scenario_name := name, current_component := entry }) }

/-- `ScenarioStateManager.restore_state`: reinitialize unless the persisted
state carries a truthy scenario name equal to ours and a truthy current
component, in which case resume without touching it. -/
def restore_state (name entry : String) (s : Session) : Session :=
  match s.scenario_state with
  | none => create_new_scenario_state name entry s
  | some st =>
    if st.scenario_name = "" then create_new_scenario_state name entry s
    else if st.scenario_name = name then
      if st.current_component ≠ "" then s
      else create_new_scenario_state name entry s
    else create_new_scenario_state name entry s

/-- `ScenarioStateManager.update_component_status`. -/
def update_component_status (s : Session) (component_id : String)
    (st : ComponentStatus) : Session :=
  let cur := get_current_scenario_state s
  let cur := { cur with
    component_status := setAssoc cur.component_status component_id st.value }
  { s with scenario_state := some cur }

/-- `ScenarioStateManager.update_current_component`. -/
def update_current_component (s : Session) (component_id : String) : Session :=
  let cur := get_current_scenario_state s
  { s with scenario_state := some ({ cur with current_component := component_id }) }

/-- `ScenarioStateManager.get_component_status`: read the persisted status
string for a component and parse it; a falsy or unparsable string is `None`. -/
def get_component_status (s : Session) (component_id : String) :
    Option ComponentStatus :=
  let st := match s.scenario_state with
            | some st => st
            | none => {}
  match lookupAssoc st.component_status component_id with
  | some v => if v = "" then none else ComponentStatus.ofString? v
  | none => none

/-- `ScenarioStateManager.set_scenario_completed`. -/
def set_scenario_completed (s : Session) (completed : Bool) (reason : String) : Session :=
  let cur := get_current_scenario_state s
  let cur2 : SState := { cur with completed := completed, completion_reason := reason }
  { s with scenario_state := some cur2 }

/-- `ScenarioStateManager.is_scenario_completed`. -/
def is_scenario_completed (s : Session) : Bool :=
  (get_current_scenario_state s).completed

/-- `ScenarioStateManager.get_current_component_id`: the persisted current
component, falling back to the given default entry when absent/falsy. -/
def get_current_component_id (s : Session) (default_entry : String) : String :=
  match s.scenario_state with
  | none => default_entry
  | some st =>
    if st.current_component = "" then default_entry else st.current_component

/-- `ContextManager.update_context`: store the result's `context_updates`
under the component's slot of `component_data`, and also flatten every
update into the shared global namespace, in one immediate delta. -/
def update_context (s : Session) (component_id : String) (r : ComponentResult) : Session :=
  let cd := match s.component_data with
            | some cd => cd
            | none => []
  let cd := setAssoc cd component_id r.context_updates
  { s with
    component_data := some cd,
    globals := r.context_updates.foldl (fun g kv => setAssoc g kv.1 kv.2) s.globals }

/-- `StateCleanupManager.cleanup_scenario_state`: tombstone the
workflow-scoped keys `scenario_state` and `component_data` (those that are
present) in one delta. -/
def cleanup_scenario_state (s : Session) : Session :=
  { s with scenario_state := none, component_data := none }

/-! Orchestrator (`agent.py`). -/

/-- `ScenarioAgent.__init__` / `_validate_scenario`: construction raises
`ValueError` iff the entry component id is not in `components_by_id`;
otherwise it succeeds and only logs, per component, the missing routing
targets as warnings (returned here as the ok payload). -/
def scenarioAgentInit (sc : Scenario) :
    Except String (List (String × List String)) :=
  if validate_component_exists sc.entry_component sc then
    .ok (sc.components.map (fun c => (c.id, validate_routing_conditions c sc)))
  else
    .error ("entry component not found: " ++ sc.entry_component)

/-- `ScenarioAgent._get_component_safely`: a plain dict lookup that logs
but does not raise when the id is absent. -/
def get_component_safely (sc : Scenario) (component_id : String) :
    Option ScenarioComponent :=
  components_by_id_get sc component_id

/-- `ScenarioAgent._get_next_component_id_preview`: re-resolve the
component by id and route; `None` when the id does not resolve. -/
def get_next_component_id_preview (sc : Scenario) (component_id : String)
    (r : ComponentResult) (ctx : Session) : Option String :=
  match components_by_id_get sc component_id with
  | some c => route_to_next_component c r ctx
  | none => none

/-- `ScenarioAgent._update_execution_state`: persist the component status
and context updates, then — unless the status is `RUNNING` — perform the
lookahead write of the routed next component id (only when truthy). -/
def update_execution_state (sc : Scenario) (s : Session) (component_id : String)
    (r : ComponentResult) : Session :=
  let s1 := update_component_status s component_id r.status
  let s2 := update_context s1 component_id r
  if r.status ≠ .running then
    match get_next_component_id_preview sc component_id r s2 with
    | some nc => if nc ≠ "" then update_current_component s2 nc else s2
    | none => s2
  else s2

/-- The loop's next-action strings in `ScenarioAgent._determine_next_action`. -/
inductive NextAction where
  | continueCurrent
  | next
  | failure
  | terminate
deriving DecidableEq, Repr

/-- `ScenarioAgent._determine_next_action`: `RUNNING` terminates (suspend),
`FAILED` takes the failure path, `COMPLETED` advances, anything else
terminates. -/
def determine_next_action (r : ComponentResult) : NextAction :=
  if r.status = .running then .terminate
  else if should_handle_failure r.status then .failure
  else if should_proceed_to_next r.status then .next
  else .terminate

/-- One recorded black-box execution: a graph component's agent run, or
the failure component's agent run. -/
inductive ExecEntry where
  | comp (id : String)
  | failureComp (id : String)
deriving DecidableEq, Repr

/-- How `_execute_scenario_loop` ended: returned normally, aborted with a
propagating exception, or (a model artifact) ran out of fuel. -/
inductive LoopExit where
  | normal
  | raised (e : String)
  | fuel
deriving DecidableEq, Repr

/-- Result of `_execute_scenario_loop`: the session after its deltas, the
executions it performed, and how it ended. -/
structure LoopResult where
  session : Session
  trace : List ExecEntry
  exitKind : LoopExit
deriving Repr

/-- `ScenarioAgent._execute_scenario_loop`, with explicit fuel for the
unbounded `while`.  Each iteration: (falsy current id ends the loop;)
resolve the component — an unresolved id marks the scenario completed with
reason `component_not_found`; run the black-box agent — an exception aborts
the loop; build the `ComponentResult`; apply status/context updates and the
lookahead write; then branch on the next action. -/
def execute_scenario_loop (sc : Scenario) :
    Nat → Session → String → LoopResult
  | 0, s, _ => ⟨s, [], .fuel⟩
  | Nat.succ n, s, cid =>
    if cid = "" then ⟨s, [], .normal⟩
    else
      match get_component_safely sc cid with
      | none =>
        ⟨set_scenario_completed s true "component_not_found", [], .normal⟩
      | some comp =>
        match comp.agent.run s with
        | (s1, some e) => ⟨s1, [.comp cid], .raised e⟩
        | (s1, none) =>
          let r := comp.agent.create_component_result s1
          let s2 := update_execution_state sc s1 cid r
          match determine_next_action r with
          | .continueCurrent =>
            let res := execute_scenario_loop sc n s2 cid
            ⟨res.session, .comp cid :: res.trace, res.exitKind⟩
          | .next =>
            match route_to_next_component comp r s2 with
            | none =>
              ⟨set_scenario_completed s2 true "no_next_component", [.comp cid], .normal⟩
            | some nxt =>
              if nxt = "" then
                ⟨set_scenario_completed s2 true "no_next_component", [.comp cid], .normal⟩
              else
                let res := execute_scenario_loop sc n s2 nxt
                ⟨res.session, .comp cid :: res.trace, res.exitKind⟩
          | .failure =>
            match sc.failure_component with
            | some f =>
              match f.agent.run s2 with
              | (s3, some e) => ⟨s3, [.comp cid, .failureComp f.id], .raised e⟩
              | (s3, none) =>
                ⟨set_scenario_completed s3 true "failure_handled",
                 [.comp cid, .failureComp f.id], .normal⟩
            | none =>
              ⟨set_scenario_completed s2 true "failure_handled", [.comp cid], .normal⟩
          | .terminate =>
            ⟨set_scenario_completed s2 false "user_input_required", [.comp cid], .normal⟩

/-- Step 1 of `_run_async_impl`: the session after `restore_state`. -/
def runRestored (sc : Scenario) (s0 : Session) : Session :=
  restore_state sc.name sc.entry_component s0

/-- Steps 1–2 of `_run_async_impl`: restore, then run the loop from the
restored current component id. -/
def runLoop (sc : Scenario) (fuel : Nat) (s0 : Session) : LoopResult :=
  execute_scenario_loop sc fuel (runRestored sc s0)
    (get_current_component_id (runRestored sc s0) sc.entry_component)

/-- Result of a whole invocation: final session, executions, and the
exception propagated to the caller (if any). -/
structure RunResult where
  session : Session
  trace : List ExecEntry
  exc : Option String
deriving Repr

/-- `ScenarioAgent._run_async_impl`: restore, loop, then clean up when the
persisted state says completed; on a propagating exception, run the failure
component (`_handle_scenario_failure`) and force cleanup before re-raising —
unless the failure component itself raises, in which case Python propagates
that new exception out of the `except` block and the cleanup never runs.
A fuel exit returns the loop state unchanged (model artifact). -/
def run_async_impl (sc : Scenario) (fuel : Nat) (s0 : Session) : RunResult :=
  match (runLoop sc fuel s0).exitKind with
  | .raised e =>
    match sc.failure_component with
    | some f =>
      match f.agent.run (runLoop sc fuel s0).session with
      | (s3, some e2) =>
        ⟨s3, (runLoop sc fuel s0).trace ++ [.failureComp f.id], some e2⟩
      | (s3, none) =>
        ⟨cleanup_scenario_state s3,
         (runLoop sc fuel s0).trace ++ [.failureComp f.id], some e⟩
    | none =>
      ⟨cleanup_scenario_state (runLoop sc fuel s0).session,
       (runLoop sc fuel s0).trace, some e⟩
  | .fuel => ⟨(runLoop sc fuel s0).session, (runLoop sc fuel s0).trace, none⟩
  | .normal =>
    if is_scenario_completed (runLoop sc fuel s0).session then
      ⟨cleanup_scenario_state (runLoop sc fuel s0).session,
       (runLoop sc fuel s0).trace, none⟩
    else
      ⟨(runLoop sc fuel s0).session, (runLoop sc fuel s0).trace, none⟩

/-! Small lemmas about the state-manager operations. -/

theorem scenario_state_update_context (s : Session) (cid : String) (r : ComponentResult) :
    (update_context s cid r).scenario_state = s.scenario_state := rfl

theorem gcss_update_context (s : Session) (cid : String) (r : ComponentResult) :
    get_current_scenario_state (update_context s cid r) = get_current_scenario_state s := rfl

theorem gcss_set_scenario_completed (s : Session) (b : Bool) (reason : String) :
    get_current_scenario_state (set_scenario_completed s b reason) =
      { get_current_scenario_state s with completed := b, completion_reason := reason } := rfl

theorem gcss_update_current_component (s : Session) (cid : String) :
    get_current_scenario_state (update_current_component s cid) =
      { get_current_scenario_state s with current_component := cid } := rfl

theorem gcss_update_component_status_current (s : Session) (cid : String) (st : ComponentStatus) :
    (get_current_scenario_state (update_component_status s cid st)).current_component =
      (get_current_scenario_state s).current_component := rfl

theorem cleanup_scenario_state_absent (s : Session) :
    (cleanup_scenario_state s).scenario_state = none ∧
      (cleanup_scenario_state s).component_data = none := ⟨rfl, rfl⟩

theorem update_execution_state_of_running (sc : Scenario) (s : Session) (cid : String)
    (r : ComponentResult) (h : r.status = .running) :
    update_execution_state sc s cid r =
      update_context (update_component_status s cid r.status) cid r := by
  unfold update_execution_state
  simp [h]

/-- Specification-side router, written from the amended wording of the
first-match routing claim: stop at the first predicate that returns true
(a raising predicate is a non-match); return its target when that target
is a non-empty string; otherwise — no predicate matched, or the matched
target was empty — return the first default next id provided it is a
non-empty string; otherwise return none. -/
def route_to_next_component_spec (c : ScenarioComponent) (r : ComponentResult)
    (ctx : Session) : Option String :=
  let dflt := match c.next_components.head? with
              | some t => if t = "" then none else some t
              | none => none
  match c.routing_conditions.find?
      (fun rc => match rc.condition r ctx with | .ok true => true | _ => false) with
  | some rc =>
    if rc.target_component = "" then dflt else some rc.target_component
  | none => dflt

theorem condScan_eq_find? (r : ComponentResult) (ctx : Session) (l : List RoutingCondition) :
    condScan r ctx l =
      (l.find? (fun rc => match rc.condition r ctx with | .ok true => true | _ => false)).map
        (fun rc => rc.target_component) := by
  induction l with
  | nil => rfl
  | cons rc rest ih =>
    cases h : rc.condition r ctx with
    | ok b =>
      cases b
      · simp [condScan, h, List.find?_cons, ih]
      · simp [condScan, h, List.find?_cons]
    | error e => simp [condScan, h, List.find?_cons, ih]

theorem get_default_next_component_eq_head? (c : ScenarioComponent) :
    get_default_next_component c = c.next_components.head? := by
  unfold get_default_next_component
  cases c.next_components <;> rfl

/-! Claim theorems. -/

/-- C10: writing a component status with `update_component_status` and
immediately reading it back with `get_component_status` on the resulting
session returns exactly the status that was written, for every session,
component id and status value. -/
theorem C10_status_roundtrip (s : Session) (component_id : String) (st : ComponentStatus) :
    get_component_status (update_component_status s component_id st) component_id = some st := by
  unfold get_component_status update_component_status
  simp only [lookupAssoc_setAssoc]
  cases st <;> decide

/-- C3 (amended): `route_to_next_component` equals the first-match routing
specification: the first predicate returning true wins (raising predicates
are caught as non-matches and never propagate — the router is a total
function), its target is returned when non-empty; otherwise the first
default next id is returned when present and non-empty; otherwise none. -/
theorem C3_route_refines_first_match_spec (c : ScenarioComponent)
    (r : ComponentResult) (ctx : Session) :
    route_to_next_component c r ctx = route_to_next_component_spec c r ctx := by
  unfold route_to_next_component route_to_next_component_spec check_routing_conditions
  rw [condScan_eq_find?, get_default_next_component_eq_head?]
  cases hf : c.routing_conditions.find?
      (fun rc => match rc.condition r ctx with | .ok true => true | _ => false) with
  | none =>
    cases hd : c.next_components.head? with
    | none => simp [truthyOpt]
    | some t =>
      by_cases ht : t = "" <;> simp [truthyOpt, ht]
  | some rc =>
    by_cases ht : rc.target_component = ""
    · cases hd : c.next_components.head? with
      | none => simp [truthyOpt, ht]
      | some t =>
        by_cases ht2 : t = "" <;> simp [truthyOpt, ht, ht2]
    · simp [truthyOpt, ht]

def agentNoop : Agent :=
  { run := fun s => (s, none),
    create_component_result := fun _ => { status := .completed } }

def condAlwaysTrueEmptyTarget : RoutingCondition :=
  { target_component := "", condition := fun _ _ => .ok true }

def cxEmptyTarget : ScenarioComponent :=
  { id := "A", agent := agentNoop, next_components := ["B"],
    routing_conditions := [condAlwaysTrueEmptyTarget] }

def cxEmptyDefault : ScenarioComponent :=
  { id := "A", agent := agentNoop, next_components := [""] }

def rCx : ComponentResult := { status := .completed }

/-- C3 counterexample: the claim as stated is false on Python's string
truthiness.  In `cxEmptyTarget`, the first (and only) routing predicate
returns true and its declared target is the empty string, yet the router
does not return that target — it returns the default next `"B"`.  And in
`cxEmptyDefault`, no condition matches and the default-next list is
non-empty with first entry `""`, yet the router returns none, not that
first entry. -/
theorem C3_counterexample :
    (condAlwaysTrueEmptyTarget.condition rCx {} = .ok true ∧
      cxEmptyTarget.routing_conditions = [condAlwaysTrueEmptyTarget] ∧
      condAlwaysTrueEmptyTarget.target_component = "" ∧
      route_to_next_component cxEmptyTarget rCx {} = some "B") ∧
    (cxEmptyDefault.routing_conditions = [] ∧
      cxEmptyDefault.next_components = [""] ∧
      route_to_next_component cxEmptyDefault rCx {} = none) :=
  ⟨⟨rfl, rfl, rfl, rfl⟩, ⟨rfl, rfl, rfl⟩⟩

/-- C6: `restore_state` resumes — leaves the session untouched, and the
subsequent `get_current_component_id` read yields the persisted current
component — exactly when the persisted state is present with a non-empty
scenario name equal to ours and a non-empty current component id; in every
other case (absent state, missing/empty scenario name, different scenario
name, or empty current component id) it initializes a fresh state whose
current component is the entry id, whose status map is empty and which is
not completed, so the loop starts at the entry component. -/
theorem C6_restore_semantics (name entry : String) (s : Session) :
    (∀ st, s.scenario_state = some st → st.scenario_name ≠ "" →
      st.scenario_name = name → st.current_component ≠ "" →
      restore_state name entry s = s ∧
      get_current_component_id s entry = st.current_component) ∧
    ((match s.scenario_state with
      | none => True
      | some st =>
        st.scenario_name = "" ∨ st.scenario_name ≠ name ∨ st.current_component = "") →
      (restore_state name entry s).scenario_state =
        some ({ scenario_name := name, current_component := entry,
                component_status := [], completed := false, completion_reason := "" }) ∧
      is_scenario_completed (restore_state name entry s) = false ∧
      get_current_component_id (restore_state name entry s) entry = entry) := by
  constructor
  · intro st hst h1 h2 h3
    constructor
    · unfold restore_state
      rw [hst]
      rw [h2] at h1
      simp [h1, h2, h3]
    · unfold get_current_component_id
      rw [hst]
      simp [h3]
  · intro h
    cases hst : s.scenario_state with
    | none =>
      refine ⟨?_, ?_, ?_⟩ <;>
        simp [restore_state, create_new_scenario_state, is_scenario_completed,
          get_current_scenario_state, get_current_component_id, hst]
    | some st =>
      rw [hst] at h
      have hfresh : restore_state name entry s = create_new_scenario_state name entry s := by
        unfold restore_state
        rw [hst]
        rcases h with h | h | h
        · simp [h]
        · by_cases h0 : st.scenario_name = "" <;> simp [h0, h]
        · by_cases h0 : st.scenario_name = "" <;>
            by_cases h1 : st.scenario_name = name <;> simp [h0, h1, h]
      refine ⟨?_, ?_, ?_⟩ <;>
        simp [hfresh, create_new_scenario_state, is_scenario_completed,
          get_current_scenario_state, get_current_component_id]

def sessC6resume : Session :=
  { scenario_state := some { scenario_name := "w6", current_component := "X" } }

def sessC6fresh : Session :=
  { scenario_state := some { scenario_name := "other", current_component := "X" } }

/-- C6 witness: a same-name persisted state with current component `"X"` is
resumed untouched, while a persisted state of a different scenario name is
reinitialized at the entry component. -/
theorem C6_restore_semantics_witness :
    (restore_state "w6" "E" sessC6resume = sessC6resume ∧
      get_current_component_id sessC6resume "E" = "X") ∧
    (restore_state "w6" "E" sessC6fresh).scenario_state =
      some ({ scenario_name := "w6", current_component := "E",
              component_status := [], completed := false, completion_reason := "" }) := by
  refine ⟨?_, ?_⟩
  · exact (C6_restore_semantics "w6" "E" sessC6resume).1 _ rfl (by decide) (by decide) (by decide)
  · exact ((C6_restore_semantics "w6" "E" sessC6fresh).2 (by right; left; decide)).1

/-- C8: constructing a `ScenarioAgent` fails with an error exactly when the
scenario's entry component id does not occur among its component ids;
non-existent routing-condition targets or default-next ids never make
construction fail — they are only collected as warnings. -/
theorem C8_construction_validation (sc : Scenario) :
    (validate_component_exists sc.entry_component sc = false →
      ∃ msg, scenarioAgentInit sc = .error msg) ∧
    (validate_component_exists sc.entry_component sc = true →
      ∃ warnings, scenarioAgentInit sc = .ok warnings) := by
  constructor
  · intro h
    refine ⟨"entry component not found: " ++ sc.entry_component, ?_⟩
    unfold scenarioAgentInit
    simp [h]
  · intro h
    refine ⟨sc.components.map (fun c => (c.id, validate_routing_conditions c sc)), ?_⟩
    unfold scenarioAgentInit
    simp [h]

def cC8A : ScenarioComponent :=
  { id := "A", agent := agentNoop,
    next_components := ["MISSING"],
    routing_conditions := [{ target_component := "ALSO_MISSING",
                             condition := fun _ _ => .ok false }] }

def scC8bad : Scenario :=
  { name := "w8", components := [cC8A], entry_component := "Z" }

def scC8warn : Scenario :=
  { name := "w8", components := [cC8A], entry_component := "A" }

/-- C8 witness: a missing entry id makes construction fail, while a
scenario whose only component references two non-existent ids (one routing
target, one default next) still constructs, with those ids collected as
warnings. -/
theorem C8_construction_validation_witness :
    (∃ msg, scenarioAgentInit scC8bad = .error msg) ∧
    (∃ warnings, scenarioAgentInit scC8warn = .ok warnings) ∧
    validate_routing_conditions cC8A scC8warn = ["ALSO_MISSING", "MISSING"] := by
  refine ⟨?_, ?_, rfl⟩
  · exact (C8_construction_validation scC8bad).1 (by decide)
  · exact (C8_construction_validation scC8warn).2 (by decide)

/-- C1 (amended): when the component executed in a loop iteration yields a
result with status `Running`, the loop stops right there (one execution, a
normal return) with persisted `completed=false` and completion reason
`user_input_required`, and the persisted current component id is exactly
what it was in the session the component run produced — the iteration
itself never moves it, so it is the id of the component that just ran
whenever the loop entered the iteration with that id persisted (which the
lookahead write guarantees only when routing predicates are insensitive to
it). -/
theorem C1_running_suspends_in_place (sc : Scenario) (n : Nat) (s s1 : Session)
    (cid : String) (comp : ScenarioComponent)
    (hne : cid ≠ "")
    (hlk : components_by_id_get sc cid = some comp)
    (hrun : comp.agent.run s = (s1, none))
    (hst : (comp.agent.create_component_result s1).status = .running) :
    ∃ sf, execute_scenario_loop sc (n + 1) s cid = ⟨sf, [.comp cid], .normal⟩ ∧
      (get_current_scenario_state sf).current_component =
        (get_current_scenario_state s1).current_component ∧
      (get_current_scenario_state sf).completed = false ∧
      (get_current_scenario_state sf).completion_reason = "user_input_required" := by
  have hact : determine_next_action (comp.agent.create_component_result s1) = .terminate := by
    unfold determine_next_action
    rw [hst]
    rfl
  refine ⟨set_scenario_completed
      (update_execution_state sc s1 cid (comp.agent.create_component_result s1))
      false "user_input_required", ?_, ?_, ?_, ?_⟩
  · simp only [execute_scenario_loop, get_component_safely, hlk, hrun, hact, if_neg hne]
  · rw [update_execution_state_of_running sc s1 cid _ hst, gcss_set_scenario_completed,
      gcss_update_context]
    exact gcss_update_component_status_current s1 cid
      (comp.agent.create_component_result s1).status
  · rw [gcss_set_scenario_completed]
  · rw [gcss_set_scenario_completed]

def agentRunning : Agent :=
  { run := fun s => (s, none),
    create_component_result := fun _ => { status := .running } }

def cC1w : ScenarioComponent := { id := "A", agent := agentRunning }

def scC1w : Scenario := { name := "w1", components := [cC1w], entry_component := "A" }

def sessC1w : Session :=
  { scenario_state := some { scenario_name := "w1", current_component := "A" } }

/-- C1 witness: a single component returning `Running` suspends the loop in
place — status map untouched current id, `completed=false`, reason
`user_input_required`. -/
theorem C1_running_suspends_in_place_witness :
    ∃ sf, execute_scenario_loop scC1w 1 sessC1w "A" = ⟨sf, [.comp "A"], .normal⟩ ∧
      (get_current_scenario_state sf).current_component =
        (get_current_scenario_state sessC1w).current_component ∧
      (get_current_scenario_state sf).completed = false ∧
      (get_current_scenario_state sf).completion_reason = "user_input_required" :=
  C1_running_suspends_in_place scC1w 0 sessC1w sessC1w "A" cC1w
    (by decide) rfl rfl rfl

def agentCompletedNoop : Agent :=
  { run := fun s => (s, none),
    create_component_result := fun _ => { status := .completed } }

def condCurrentIsA : RoutingCondition :=
  { target_component := "B",
    condition := fun _ ctx =>
      .ok ((get_current_scenario_state ctx).current_component == "A") }

def cC1A : ScenarioComponent :=
  { id := "A", agent := agentCompletedNoop, next_components := ["C"],
    routing_conditions := [condCurrentIsA] }

def cC1C : ScenarioComponent := { id := "C", agent := agentRunning }

def scC1 : Scenario :=
  { name := "s1", components := [cC1A, cC1C], entry_component := "A" }

/-- C1 counterexample: the claim as stated is false.  Component `A`
completes; its routing predicate (reading the persisted current component
id, which the lookahead write has meanwhile moved to `"B"`) evaluates
differently in the lookahead evaluation and in the advance evaluation, so
the loop proceeds to `"C"` while `"B"` stays persisted.  `C` then yields
`Running`: the invocation suspends with `completed=false` and reason
`user_input_required`, but the persisted current component id is `"B"`, not
the id `"C"` of the component that just ran — the next invocation would
re-enter `B`, a different component. -/
theorem C1_counterexample :
    (run_async_impl scC1 3 {}).trace = [.comp "A", .comp "C"] ∧
    get_component_status (run_async_impl scC1 3 {}).session "C" = some .running ∧
    is_scenario_completed (run_async_impl scC1 3 {}).session = false ∧
    (get_current_scenario_state (run_async_impl scC1 3 {}).session).completion_reason =
      "user_input_required" ∧
    (get_current_scenario_state (run_async_impl scC1 3 {}).session).current_component = "B" ∧
    "B" ≠ "C" :=
  ⟨rfl, rfl, rfl, rfl, rfl, by decide⟩

/-- C4: when the executed component's derived status is `Failed`, the loop
runs the scenario's declared failure component exactly once (and zero times
when none is declared), marks the persisted state `completed=true` with
reason `failure_handled`, and returns — the failed component itself appears
exactly once in the remaining trace, so it is never retried. -/
theorem C4_failed_handles_failure_once (sc : Scenario) (n : Nat) (s s1 : Session)
    (cid : String) (comp : ScenarioComponent)
    (hne : cid ≠ "")
    (hlk : components_by_id_get sc cid = some comp)
    (hrun : comp.agent.run s = (s1, none))
    (hst : (comp.agent.create_component_result s1).status = .failed)
    (hfr : ∀ f, sc.failure_component = some f →
      (f.agent.run (update_execution_state sc s1 cid
        (comp.agent.create_component_result s1))).2 = none) :
    ∃ sf tr, execute_scenario_loop sc (n + 1) s cid = ⟨sf, tr, .normal⟩ ∧
      tr.countP (fun e => match e with | .failureComp _ => true | _ => false) =
        (if sc.failure_component.isSome then 1 else 0) ∧
      tr.countP (fun e => match e with | .comp _ => true | _ => false) = 1 ∧
      (get_current_scenario_state sf).completed = true ∧
      (get_current_scenario_state sf).completion_reason = "failure_handled" := by
  have hact : determine_next_action (comp.agent.create_component_result s1) = .failure := by
    unfold determine_next_action should_handle_failure
    rw [hst]
    rfl
  cases hfc : sc.failure_component with
  | none =>
    refine ⟨set_scenario_completed
        (update_execution_state sc s1 cid (comp.agent.create_component_result s1))
        true "failure_handled", [.comp cid], ?_, ?_, ?_, ?_, ?_⟩
    · simp only [execute_scenario_loop, get_component_safely, hlk, hrun, hact, hfc,
        if_neg hne]
    · simp [hfc]
    · rfl
    · rw [gcss_set_scenario_completed]
    · rw [gcss_set_scenario_completed]
  | some f =>
    have h2 := hfr f hfc
    cases hf2 : f.agent.run (update_execution_state sc s1 cid
        (comp.agent.create_component_result s1)) with
    | mk s3 o =>
      rw [hf2] at h2
      simp only at h2
      subst h2
      refine ⟨set_scenario_completed s3 true "failure_handled",
        [.comp cid, .failureComp f.id], ?_, ?_, ?_, ?_, ?_⟩
      · simp only [execute_scenario_loop, get_component_safely, hlk, hrun, hact, hfc,
          hf2, if_neg hne]
      · simp [hfc]
      · rfl
      · rw [gcss_set_scenario_completed]
      · rw [gcss_set_scenario_completed]

def agentFailed : Agent :=
  { run := fun s => (s, none),
    create_component_result := fun _ => { status := .failed } }

def cC4A : ScenarioComponent := { id := "A", agent := agentFailed }

def cC4F : ScenarioComponent := { id := "F", agent := agentCompletedNoop }

def scC4 : Scenario :=
  { name := "w4", components := [cC4A], entry_component := "A",
    failure_component := some cC4F }

def sessC4 : Session :=
  { scenario_state := some { scenario_name := "w4", current_component := "A" } }

/-- C4 witness: component `A` fails with failure component `F` declared —
`F` runs exactly once and the scenario ends `completed=true`, reason
`failure_handled`. -/
theorem C4_failed_handles_failure_once_witness :
    ∃ sf tr, execute_scenario_loop scC4 1 sessC4 "A" = ⟨sf, tr, .normal⟩ ∧
      tr.countP (fun e => match e with | .failureComp _ => true | _ => false) =
        (if scC4.failure_component.isSome then 1 else 0) ∧
      tr.countP (fun e => match e with | .comp _ => true | _ => false) = 1 ∧
      (get_current_scenario_state sf).completed = true ∧
      (get_current_scenario_state sf).completion_reason = "failure_handled" :=
  C4_failed_handles_failure_once scC4 0 sessC4 sessC4 "A" cC4A
    (by decide) rfl rfl rfl (by intro f hf; cases hf; rfl)

def agentRaisesFboom : Agent :=
  { run := fun s => (s, some "fboom"),
    create_component_result := fun _ => { status := .completed } }

def scC4x : Scenario :=
  { name := "s4", components := [{ id := "A", agent := agentFailed }],
    entry_component := "A",
    failure_component := some { id := "F", agent := agentRaisesFboom } }

/-- C4 counterexample: the claim as stated is false when the declared
failure component itself raises.  Component `A` yields `Failed`; the
failure component `F` raises — its exception escapes the loop's failure
branch, and the except-block failure path then runs `F` a second time, so
`F` executes twice, not exactly once; `completed=true` with reason
`failure_handled` is never set (the invocation ends by propagating the
exception with the state still not completed). -/
theorem C4_counterexample :
    (run_async_impl scC4x 1 {}).trace =
      [.comp "A", .failureComp "F", .failureComp "F"] ∧
    is_scenario_completed (run_async_impl scC4x 1 {}).session = false ∧
    (get_current_scenario_state (run_async_impl scC4x 1 {}).session).completion_reason ≠
      "failure_handled" ∧
    (run_async_impl scC4x 1 {}).exc = some "fboom" :=
  ⟨rfl, rfl, by decide, rfl⟩

/-- C7: when the executed component's derived status is `Pending` (neither
`Running`, `Completed` nor `Failed`), the lookahead write still happens:
the routed next component id is persisted as the current component, and the
loop then suspends with `completed=false` and reason `user_input_required`
— so the next invocation resumes at the routed next component, not at the
component that produced the `Pending` status. -/
theorem C7_pending_lookahead_then_suspend (sc : Scenario) (n : Nat) (s s1 : Session)
    (cid : String) (comp : ScenarioComponent) (nxt : String)
    (hne : cid ≠ "")
    (hlk : components_by_id_get sc cid = some comp)
    (hrun : comp.agent.run s = (s1, none))
    (hst : (comp.agent.create_component_result s1).status = .pending)
    (hprev : get_next_component_id_preview sc cid (comp.agent.create_component_result s1)
      (update_context (update_component_status s1 cid .pending) cid
        (comp.agent.create_component_result s1)) = some nxt)
    (hnxt : nxt ≠ "") :
    ∃ sf, execute_scenario_loop sc (n + 1) s cid = ⟨sf, [.comp cid], .normal⟩ ∧
      (get_current_scenario_state sf).current_component = nxt ∧
      (get_current_scenario_state sf).completed = false ∧
      (get_current_scenario_state sf).completion_reason = "user_input_required" := by
  have hact : determine_next_action (comp.agent.create_component_result s1) = .terminate := by
    unfold determine_next_action should_handle_failure should_proceed_to_next
    rw [hst]
    rfl
  have hupd : update_execution_state sc s1 cid (comp.agent.create_component_result s1) =
      update_current_component
        (update_context (update_component_status s1 cid .pending) cid
          (comp.agent.create_component_result s1)) nxt := by
    unfold update_execution_state
    rw [hst]
    simp only [hprev]
    simp [hnxt]
  refine ⟨set_scenario_completed
      (update_execution_state sc s1 cid (comp.agent.create_component_result s1))
      false "user_input_required", ?_, ?_, ?_, ?_⟩
  · simp only [execute_scenario_loop, get_component_safely, hlk, hrun, hact, if_neg hne]
  · rw [gcss_set_scenario_completed, hupd, gcss_update_current_component]
  · rw [gcss_set_scenario_completed]
  · rw [gcss_set_scenario_completed]

def agentPending : Agent :=
  { run := fun s => (s, none),
    create_component_result := fun _ => { status := .pending } }

def cC7A : ScenarioComponent :=
  { id := "A", agent := agentPending, next_components := ["B"] }

def cC7B : ScenarioComponent := { id := "B", agent := agentRunning }

def scC7 : Scenario :=
  { name := "w7", components := [cC7A, cC7B], entry_component := "A" }

def sessC7 : Session :=
  { scenario_state := some { scenario_name := "w7", current_component := "A" } }

/-- C7 witness: component `A` yields `Pending` and routes (by default next)
to `B` — the loop suspends with the persisted current component moved to
`B`. -/
theorem C7_pending_lookahead_then_suspend_witness :
    ∃ sf, execute_scenario_loop scC7 1 sessC7 "A" = ⟨sf, [.comp "A"], .normal⟩ ∧
      (get_current_scenario_state sf).current_component = "B" ∧
      (get_current_scenario_state sf).completed = false ∧
      (get_current_scenario_state sf).completion_reason = "user_input_required" :=
  C7_pending_lookahead_then_suspend scC7 0 sessC7 sessC7 "A" cC7A "B"
    (by decide) rfl rfl rfl rfl (by decide)

/-- C2: when the execution loop returns normally, the invocation ends by
cleaning up exactly when the persisted state is marked completed: if
`completed=true` (any reason), the same invocation applies the cleanup
delta removing both workflow-scoped keys, so reading the scenario state key
afterwards yields absent (and the per-component data map is gone too); if
`completed=false`, no cleanup runs and the session is returned exactly as
the loop left it. -/
theorem C2_terminal_cleanup (sc : Scenario) (fuel : Nat) (s0 : Session)
    (hn : (runLoop sc fuel s0).exitKind = .normal) :
    (is_scenario_completed (runLoop sc fuel s0).session = true →
      run_async_impl sc fuel s0 =
        ⟨cleanup_scenario_state (runLoop sc fuel s0).session,
         (runLoop sc fuel s0).trace, none⟩ ∧
      (run_async_impl sc fuel s0).session.scenario_state = none ∧
      (run_async_impl sc fuel s0).session.component_data = none) ∧
    (is_scenario_completed (runLoop sc fuel s0).session = false →
      run_async_impl sc fuel s0 =
        ⟨(runLoop sc fuel s0).session, (runLoop sc fuel s0).trace, none⟩) := by
  constructor
  · intro h
    have he : run_async_impl sc fuel s0 =
        ⟨cleanup_scenario_state (runLoop sc fuel s0).session,
         (runLoop sc fuel s0).trace, none⟩ := by
      unfold run_async_impl
      rw [hn]
      simp [h]
    exact ⟨he, by rw [he]; rfl, by rw [he]; rfl⟩
  · intro h
    unfold run_async_impl
    rw [hn]
    simp [h]

def cC2A : ScenarioComponent := { id := "A", agent := agentCompletedNoop }

def scC2 : Scenario := { name := "w2", components := [cC2A], entry_component := "A" }

/-- C2 witness: a one-component scenario that completes with no next
component ends the invocation with both workflow-scoped keys removed. -/
theorem C2_terminal_cleanup_witness :
    (run_async_impl scC2 1 {}).session.scenario_state = none ∧
    (run_async_impl scC2 1 {}).session.component_data = none :=
  ⟨((C2_terminal_cleanup scC2 1 {} (by decide)).1 (by decide)).2.1,
   ((C2_terminal_cleanup scC2 1 {} (by decide)).1 (by decide)).2.2⟩

/-- C5 (amended): when the loop aborts with an exception, the engine runs
the failure component (when declared) and — provided that failure-component
execution does not itself raise — then applies the forced cleanup delta
(removing both workflow-scoped keys regardless of the completed flag) and
re-raises the same exception to the caller; when no failure component is
declared, the cleanup and re-raise happen directly.  (If the failure
component raises during this handling, that new exception propagates
instead and the cleanup is skipped.) -/
theorem C5_exception_failure_path (sc : Scenario) (fuel : Nat) (s0 : Session) (e : String)
    (hr : (runLoop sc fuel s0).exitKind = .raised e)
    (hf : ∀ f, sc.failure_component = some f →
      (f.agent.run (runLoop sc fuel s0).session).2 = none) :
    (run_async_impl sc fuel s0).exc = some e ∧
    (run_async_impl sc fuel s0).session.scenario_state = none ∧
    (run_async_impl sc fuel s0).session.component_data = none ∧
    (∀ f, sc.failure_component = some f →
      (run_async_impl sc fuel s0).trace =
        (runLoop sc fuel s0).trace ++ [.failureComp f.id]) ∧
    (sc.failure_component = none →
      (run_async_impl sc fuel s0).trace = (runLoop sc fuel s0).trace) := by
  cases hfc : sc.failure_component with
  | none =>
    have he : run_async_impl sc fuel s0 =
        ⟨cleanup_scenario_state (runLoop sc fuel s0).session,
         (runLoop sc fuel s0).trace, some e⟩ := by
      unfold run_async_impl
      rw [hr, hfc]
    refine ⟨by rw [he], by rw [he]; rfl, by rw [he]; rfl, ?_, by intro h5; rw [he]⟩
    intro f hf2
    exact Option.noConfusion hf2
  | some f =>
    have h2 := hf f hfc
    cases hf2 : f.agent.run (runLoop sc fuel s0).session with
    | mk s3 o =>
      rw [hf2] at h2
      simp only at h2
      subst h2
      have he : run_async_impl sc fuel s0 =
          ⟨cleanup_scenario_state s3,
           (runLoop sc fuel s0).trace ++ [.failureComp f.id], some e⟩ := by
        unfold run_async_impl
        rw [hr]
        simp only [hfc]
        rw [hf2]
      refine ⟨by rw [he], by rw [he]; rfl, by rw [he]; rfl, ?_, ?_⟩
      · intro f2 hf3
        injection hf3 with h3
        subst h3
        rw [he]
      · intro hf3
        exact Option.noConfusion hf3

def agentRaisesBoom : Agent :=
  { run := fun s => (s, some "boom"),
    create_component_result := fun _ => { status := .completed } }

def agentRaisesBoom2 : Agent :=
  { run := fun s => (s, some "boom2"),
    create_component_result := fun _ => { status := .completed } }

def scC5w : Scenario :=
  { name := "w5", components := [{ id := "A", agent := agentRaisesBoom }],
    entry_component := "A",
    failure_component := some { id := "F", agent := agentCompletedNoop } }

/-- C5 witness: component `A` raises `"boom"`, the declared failure
component runs without raising — the invocation re-raises `"boom"` with the
workflow keys removed and the failure component recorded once. -/
theorem C5_exception_failure_path_witness :
    (run_async_impl scC5w 1 {}).exc = some "boom" ∧
    (run_async_impl scC5w 1 {}).session.scenario_state = none ∧
    (run_async_impl scC5w 1 {}).trace = [.comp "A", .failureComp "F"] := by
  have h := C5_exception_failure_path scC5w 1 {} "boom" rfl
    (by intro f hf; cases hf; rfl)
  exact ⟨h.1, h.2.1, by rw [h.2.2.2.1 _ rfl]; rfl⟩

def scC5 : Scenario :=
  { name := "s5", components := [{ id := "A", agent := agentRaisesBoom }],
    entry_component := "A",
    failure_component := some { id := "F", agent := agentRaisesBoom2 } }

/-- C5 counterexample: the claim as stated is false.  Component `A` raises
`"boom"`; the declared failure component itself raises `"boom2"` while
handling it.  The invocation then propagates `"boom2"` — not the original
exception — and the forced cleanup never runs: the persisted scenario state
survives the failure. -/
theorem C5_counterexample :
    (run_async_impl scC5 1 {}).exc = some "boom2" ∧
    (run_async_impl scC5 1 {}).exc ≠ some "boom" ∧
    (run_async_impl scC5 1 {}).session.scenario_state ≠ none :=
  ⟨rfl, by decide, by decide⟩

/-- C9: when the current component id at the top of a loop iteration does
not resolve in the component map, the engine does not raise: it marks the
persisted state `completed=true` with reason `component_not_found` and
stops, and the same invocation then removes both workflow-scoped persisted
keys through cleanup, returning without an exception. -/
theorem C9_component_not_found (sc : Scenario) (n : Nat) (s0 : Session) (cid : String)
    (hcid : get_current_component_id (runRestored sc s0) sc.entry_component = cid)
    (hne : cid ≠ "")
    (hlk : components_by_id_get sc cid = none) :
    run_async_impl sc (n + 1) s0 =
      ⟨cleanup_scenario_state
         (set_scenario_completed (runRestored sc s0) true "component_not_found"),
       [], none⟩ ∧
    (run_async_impl sc (n + 1) s0).exc = none ∧
    (run_async_impl sc (n + 1) s0).session.scenario_state = none ∧
    (run_async_impl sc (n + 1) s0).session.component_data = none ∧
    (get_current_scenario_state
      (set_scenario_completed (runRestored sc s0) true "component_not_found")).completed
        = true ∧
    (get_current_scenario_state
      (set_scenario_completed (runRestored sc s0) true "component_not_found")).completion_reason
        = "component_not_found" := by
  have hloop : runLoop sc (n + 1) s0 =
      ⟨set_scenario_completed (runRestored sc s0) true "component_not_found",
       [], .normal⟩ := by
    unfold runLoop
    rw [hcid]
    simp only [execute_scenario_loop, get_component_safely, hlk, if_neg hne]
  have hcompl : is_scenario_completed
      (set_scenario_completed (runRestored sc s0) true "component_not_found") = true := by
    unfold is_scenario_completed
    rw [gcss_set_scenario_completed]
  have he : run_async_impl sc (n + 1) s0 =
      ⟨cleanup_scenario_state
         (set_scenario_completed (runRestored sc s0) true "component_not_found"),
       [], none⟩ := by
    unfold run_async_impl
    rw [hloop]
    simp [hcompl]
  refine ⟨he, by rw [he], by rw [he]; rfl, by rw [he]; rfl, ?_, ?_⟩
  · rw [gcss_set_scenario_completed]
  · rw [gcss_set_scenario_completed]

def scC9 : Scenario :=
  { name := "w9", components := [{ id := "A", agent := agentCompletedNoop }],
    entry_component := "A" }

def sessC9 : Session :=
  { scenario_state := some { scenario_name := "w9", current_component := "Z" } }

/-- C9 witness: a resumed invocation whose persisted current component id
`"Z"` no longer resolves ends cleanly — no exception, completed with reason
`component_not_found`, workflow keys removed. -/
theorem C9_component_not_found_witness :
    (run_async_impl scC9 1 sessC9).exc = none ∧
    (run_async_impl scC9 1 sessC9).session.scenario_state = none :=
  ⟨(C9_component_not_found scC9 0 sessC9 "Z" rfl (by decide) rfl).2.1,
   (C9_component_not_found scC9 0 sessC9 "Z" rfl (by decide) rfl).2.2.1⟩

end Scenario2Proof
